import Mathlib

/-!
Verification of the chatUI repository's session/message persistence layer.

The repository has two variants of the same application:
* `chatUI-Sqlite.py` — role/content message rows, sessions track `last_updated`;
* `chatUI-Copilot.py` — paired (user_message, llm_response) rows, sessions track
  only `created_at`.

Both variants store data in SQLite.  Timestamps are modelled as naturals
(`datetime.now()` values are totally ordered and monotone per run).  A crucial
fact about the actual runtime: both schemas declare a `FOREIGN KEY` clause, but
neither variant ever executes `PRAGMA foreign_keys = ON`, and SQLite leaves
foreign-key enforcement OFF by default — so an `INSERT` into `messages`
succeeds for any `session_id` whatsoever.  The embedding below reflects that
actual behaviour.
-/

namespace ChatUI

namespace Sqlite

/-- A row of the `chat_sessions` table of chatUI-Sqlite.py
(`session_id TEXT PRIMARY KEY, created_at TIMESTAMP, last_updated TIMESTAMP`). -/
structure SessionRow where
  session_id : String
  created_at : Nat
  last_updated : Nat
deriving DecidableEq, Repr

/-- A row of the `messages` table of chatUI-Sqlite.py
(`id INTEGER PRIMARY KEY AUTOINCREMENT, session_id TEXT, role TEXT,
content TEXT, timestamp TIMESTAMP`).  The declared
`FOREIGN KEY (session_id) REFERENCES chat_sessions (session_id)` is not
enforced at runtime (the foreign-keys pragma is never enabled). -/
structure MessageRow where
  id : Nat
  session_id : String
  role : String
  content : String
  timestamp : Nat
deriving DecidableEq, Repr

/-- The state of the SQLite database file used by chatUI-Sqlite.py.  The two
Boolean flags record whether each table exists (relevant before `init_db`);
`next_id` is the AUTOINCREMENT counter of `messages`. -/
structure DB where
  hasSessionsTable : Bool
  hasMessagesTable : Bool
  chat_sessions : List SessionRow
  messages : List MessageRow
  next_id : Nat
deriving DecidableEq, Repr

/-- A database file that does not exist yet / has no tables. -/
def emptyFile : DB := ⟨false, false, [], [], 1⟩

/-- `init_db` of chatUI-Sqlite.py: two `CREATE TABLE IF NOT EXISTS` statements.
A table that already exists is left untouched, rows included; a missing table
is created empty.  `CREATE TABLE IF NOT EXISTS` never raises a
duplicate-table error, so the operation is total. -/
def init_db (db : DB) : DB :=
  { hasSessionsTable := true
    hasMessagesTable := true
    chat_sessions := if db.hasSessionsTable then db.chat_sessions else []
    messages := if db.hasMessagesTable then db.messages else []
    next_id := if db.hasMessagesTable then db.next_id else 1 }

/-- `save_message` of chatUI-Sqlite.py: INSERTs a message row (the timestamp is
`datetime.now()`, passed here as `current_time`), then UPDATEs the owning
session's `last_updated`, then commits.  Because foreign-key enforcement is
off, the INSERT succeeds even when no session with `session_id` exists; the
UPDATE then simply affects zero rows. -/
def save_message (db : DB) (session_id role content : String)
    (current_time : Nat) : DB :=
  { db with
    messages :=
      db.messages ++ [⟨db.next_id, session_id, role, content, current_time⟩]
    next_id := db.next_id + 1
    chat_sessions := db.chat_sessions.map fun s =>
      if s.session_id = session_id then
        { s with last_updated := current_time }
      else s }

/-- `create_new_session` of chatUI-Sqlite.py: INSERTs a fresh session row with
`created_at = last_updated = now`.  The primary-key constraint on
`session_id` IS enforced by SQLite (unlike foreign keys), so a duplicate id
raises; the caller always passes a fresh `uuid4`. -/
def create_new_session (db : DB) (session_id : String) (current_time : Nat) :
    Option DB :=
  if db.chat_sessions.any (fun s => s.session_id == session_id) then
    none
  else
    some { db with
      chat_sessions :=
        db.chat_sessions ++ [⟨session_id, current_time, current_time⟩] }

/-- Comparator used to model `ORDER BY timestamp` (ascending). -/
def msg_le (a b : MessageRow) : Bool :=
  decide (a.timestamp ≤ b.timestamp)

/-- The rows produced by the query in `get_session_messages`:
`SELECT … FROM messages WHERE session_id = ? ORDER BY timestamp`. -/
def session_rows (db : DB) (session_id : String) : List MessageRow :=
  (db.messages.filter fun m => m.session_id == session_id).mergeSort msg_le

/-- `get_session_messages` of chatUI-Sqlite.py: the `(role, content)` pairs of
the session's messages ordered by timestamp; `[]` when there are none. -/
def get_session_messages (db : DB) (session_id : String) :
    List (String × String) :=
  (session_rows db session_id).map fun m => (m.role, m.content)

/-- The rows matched by the query in `get_first_user_message`
(`WHERE session_id = ? AND role = 'user' ORDER BY timestamp`). -/
def user_rows (db : DB) (session_id : String) : List MessageRow :=
  (db.messages.filter fun m =>
    m.session_id == session_id && m.role == "user").mergeSort msg_le

/-- `get_first_user_message` of chatUI-Sqlite.py: content of the earliest
user-role message of the session (`LIMIT 1`), or `""` if there is none. -/
def get_first_user_message (db : DB) (session_id : String) : String :=
  match user_rows db session_id with
  | [] => ""
  | m :: _ => m.content

/-- Comparator used to model `ORDER BY chat_sessions.last_updated DESC`. -/
def sess_desc (a b : SessionRow) : Bool :=
  decide (b.last_updated ≤ a.last_updated)

/-- `get_all_sessions` of chatUI-Sqlite.py:
`SELECT DISTINCT chat_sessions.* FROM chat_sessions INNER JOIN messages ON
chat_sessions.session_id = messages.session_id ORDER BY last_updated DESC`.
The inner join keeps exactly the sessions having at least one message;
`DISTINCT` collapses the one-copy-per-message multiplicity (modelled by
`dedup`); the result is ordered by `last_updated` descending. -/
def get_all_sessions (db : DB) : List SessionRow :=
  ((db.chat_sessions.filter fun s =>
      db.messages.any fun m => m.session_id == s.session_id).dedup).mergeSort
    sess_desc

/-- The sidebar's truncation of a session's first user message
(chatUI-Sqlite.py line 165):
`(first_message[:24] + "...") if len(first_message) > 27 else first_message`. -/
def display_text (first_message : String) : String :=
  if first_message.length > 27 then first_message.take 24 ++ "..."
  else first_message

/-- The preview text the sidebar shows for a listed session: the first user
message passed through `display_text`. -/
def sidebar_preview (db : DB) (session_id : String) : String :=
  display_text (get_first_user_message db session_id)

/-- The chat-input handler of chatUI-Sqlite.py (lines 181–195): saves the user
message first, then calls `send_message`; `send_message` returns `none` on a
request error (after showing the error), and the reply is saved only when
`if response:` is truthy, i.e. the reply is not `None` and not the empty
string. -/
def chat_input_handler (db : DB) (session_id prompt : String)
    (gateway : Option String) (t1 t2 : Nat) : DB :=
  let db1 := save_message db session_id "user" prompt t1
  match gateway with
  | none => db1
  | some response =>
      if response = "" then db1
      else save_message db1 session_id "assistant" response t2

end Sqlite

namespace Copilot

/-- A row of the `sessions` table of chatUI-Copilot.py
(`session_id TEXT PRIMARY KEY, created_at TIMESTAMP`). -/
structure SessionRow where
  session_id : String
  created_at : Nat
deriving DecidableEq, Repr

/-- A row of the `messages` table of chatUI-Copilot.py: one full turn,
`(id INTEGER PRIMARY KEY, session_id TEXT, user_message TEXT,
llm_response TEXT, timestamp TIMESTAMP)`.  As in the other variant the
declared foreign key is not enforced at runtime. -/
structure MessageRow where
  id : Nat
  session_id : String
  user_message : String
  llm_response : String
  timestamp : Nat
deriving DecidableEq, Repr

/-- The state of the SQLite database file used by chatUI-Copilot.py. -/
structure DB where
  hasSessionsTable : Bool
  hasMessagesTable : Bool
  sessions : List SessionRow
  messages : List MessageRow
  next_id : Nat
deriving DecidableEq, Repr

/-- A database file that does not exist yet / has no tables. -/
def emptyFile : DB := ⟨false, false, [], [], 1⟩

/-- `init_db` of chatUI-Copilot.py: two `CREATE TABLE IF NOT EXISTS`
statements; existing tables (and their rows) are left untouched. -/
def init_db (db : DB) : DB :=
  { hasSessionsTable := true
    hasMessagesTable := true
    sessions := if db.hasSessionsTable then db.sessions else []
    messages := if db.hasMessagesTable then db.messages else []
    next_id := if db.hasMessagesTable then db.next_id else 1 }

/-- `save_message` of chatUI-Copilot.py: INSERTs one paired turn row and
commits.  Foreign keys are unenforced, so this succeeds for any
`session_id`. -/
def save_message (db : DB) (session_id user_message llm_response : String)
    (t : Nat) : DB :=
  { db with
    messages :=
      db.messages ++
        [⟨db.next_id, session_id, user_message, llm_response, t⟩]
    next_id := db.next_id + 1 }

/-- `create_session` of chatUI-Copilot.py: INSERTs a session row; the
primary key on `session_id` is enforced, so a duplicate id fails. -/
def create_session (db : DB) (session_id : String) (t : Nat) : Option DB :=
  if db.sessions.any (fun s => s.session_id == session_id) then
    none
  else
    some { db with sessions := db.sessions ++ [⟨session_id, t⟩] }

/-- Comparator used to model `ORDER BY created_at DESC`. -/
def created_desc (a b : SessionRow) : Bool :=
  decide (b.created_at ≤ a.created_at)

/-- `get_sessions` of chatUI-Copilot.py:
`SELECT session_id, created_at FROM sessions ORDER BY created_at DESC`. -/
def get_sessions (db : DB) : List (String × Nat) :=
  (db.sessions.mergeSort created_desc).map fun s =>
    (s.session_id, s.created_at)

/-- Comparator used to model `ORDER BY timestamp` (ascending). -/
def msg_le (a b : MessageRow) : Bool :=
  decide (a.timestamp ≤ b.timestamp)

/-- The rows produced by the query in `get_session_messages`
(`WHERE session_id = ? ORDER BY timestamp`). -/
def session_rows (db : DB) (session_id : String) : List MessageRow :=
  (db.messages.filter fun m => m.session_id == session_id).mergeSort msg_le

/-- `get_session_messages` of chatUI-Copilot.py: the
`(user_message, llm_response)` pairs of the session's turns ordered by
timestamp. -/
def get_session_messages (db : DB) (session_id : String) :
    List (String × String) :=
  (session_rows db session_id).map fun m => (m.user_message, m.llm_response)

/-- A failure of the outbound webhook call.  In chatUI-Copilot.py,
`send_message` has no exception handling: `requests.post` or the JSON
extraction raises and the exception propagates out of the handler. -/
inductive GatewayError where
  | requestFailed
deriving DecidableEq, Repr

/-- The chat-input handler of chatUI-Copilot.py (lines 151–169): it calls
`send_message(prompt)` FIRST and only then `save_message(session_id, prompt,
response)`.  When the gateway raises, the exception propagates before any
write, so the database is returned unchanged together with the error;
when it succeeds, the user text and the reply are persisted together as one
paired row. -/
def chat_input_handler (db : DB) (session_id prompt : String)
    (gateway : Except GatewayError String) (t : Nat) :
    DB × Option GatewayError :=
  match gateway with
  | .error e => (db, some e)
  | .ok response => (save_message db session_id prompt response t, none)

/-- The retry-button handler of chatUI-Copilot.py (lines 141–144): re-sends
the ORIGINAL `user_msg` through the gateway and appends a brand-new paired
row with that original text and the fresh response; no existing row is
touched. -/
def retry_handler (db : DB) (session_id user_msg : String)
    (gateway : Except GatewayError String) (t : Nat) :
    DB × Option GatewayError :=
  match gateway with
  | .error e => (db, some e)
  | .ok new_response =>
      (save_message db session_id user_msg new_response t, none)

end Copilot

/-! ### Connection lifecycle model

For the resource-safety claim the relevant structure is the sequence of
connection-level actions each operation performs and which of them still run
when a statement raises.  `failAt = some i` means the `i`-th database action
after the connect (0-based, counting the SQL statements and then the commit)
raises an `sqlite3.Error`; `none` means the operation succeeds.  A trace
records the actions that actually completed. -/

/-- One connection-level action of a persistence operation. -/
inductive ConnEvent where
  | connect
  | statement (i : Nat)
  | commit
  | close
deriving DecidableEq, Repr

/-- Trace of `save_message` in chatUI-Sqlite.py: `sqlite3.connect`, the INSERT,
the UPDATE, `conn.commit()`, `conn.close()` — written sequentially with NO
`try`/`finally`, so a statement that raises skips everything after it,
including the `close`. -/
def sqliteSaveMessageTrace : Option Nat → List ConnEvent
  | none => [.connect, .statement 0, .statement 1, .commit, .close]
  | some 0 => [.connect]
  | some 1 => [.connect, .statement 0]
  | some _ => [.connect, .statement 0, .statement 1]

/-- Trace of `save_message` in chatUI-Copilot.py: the body runs inside
`with get_db_connection() as conn:`, whose `finally:` clause closes the
connection on every exit path, error or not. -/
def copilotSaveMessageTrace : Option Nat → List ConnEvent
  | none => [.connect, .statement 0, .commit, .close]
  | some 0 => [.connect, .close]
  | some _ => [.connect, .statement 0, .close]

/-! ### Helper lemmas -/

/-- In a list sorted by a numeric key that is a permutation of `xs ++ [u]`,
where `u`'s key strictly exceeds every key in `xs`, the last element is `u`. -/
theorem getLast_eq_of_sorted_max {α : Type} (ts : α → Nat) (ys xs : List α)
    (u : α) (hsort : ys.Pairwise fun a b => ts a ≤ ts b)
    (hperm : ys.Perm (xs ++ [u])) (hmax : ∀ v ∈ xs, ts v < ts u) :
    ys.getLast? = some u := by
  rcases List.eq_nil_or_concat ys with h | ⟨zs, w, h⟩
  · subst h
    have := hperm.length_eq
    simp at this
  · subst h
    rw [List.concat_eq_append] at hsort hperm ⊢
    rw [List.getLast?_concat]
    have hw : w ∈ xs ++ [u] := hperm.mem_iff.mp (by simp)
    rcases List.mem_append.mp hw with hwx | hwu
    · exfalso
      have hu : u ∈ zs ++ [w] := hperm.mem_iff.mpr (by simp)
      have hne : u ≠ w := by
        intro h
        subst h
        exact absurd (hmax _ hwx) (lt_irrefl _)
      have huz : u ∈ zs := by
        rcases List.mem_append.mp hu with h | h
        · exact h
        · simp at h
          exact absurd h hne
      have hle := (List.pairwise_append.mp hsort).2.2 u huz w (by simp)
      have := hmax w hwx
      omega
    · simp at hwu
      simp [hwu]

namespace Sqlite

theorem msg_le_trans :
    ∀ a b c : MessageRow, msg_le a b = true → msg_le b c = true →
      msg_le a c = true := by
  intro a b c
  simp [msg_le]
  omega

theorem msg_le_total : ∀ a b : MessageRow, (msg_le a b || msg_le b a) = true := by
  intro a b
  simp [msg_le]
  omega

theorem session_rows_perm (db : DB) (sid : String) :
    (session_rows db sid).Perm
      (db.messages.filter fun m => m.session_id == sid) :=
  List.mergeSort_perm _ _

theorem session_rows_sorted (db : DB) (sid : String) :
    (session_rows db sid).Pairwise fun a b => a.timestamp ≤ b.timestamp := by
  have h := List.sorted_mergeSort msg_le_trans msg_le_total
    (db.messages.filter fun m => m.session_id == sid)
  exact h.imp fun hab => by simpa [msg_le] using hab

theorem sess_desc_trans :
    ∀ a b c : SessionRow, sess_desc a b = true → sess_desc b c = true →
      sess_desc a c = true := by
  intro a b c
  simp [sess_desc]
  omega

theorem sess_desc_total :
    ∀ a b : SessionRow, (sess_desc a b || sess_desc b a) = true := by
  intro a b
  simp [sess_desc]
  omega

end Sqlite

namespace Copilot

theorem copilot_msg_le_trans :
    ∀ a b c : MessageRow, msg_le a b = true → msg_le b c = true →
      msg_le a c = true := by
  intro a b c
  simp [msg_le]
  omega

theorem copilot_msg_le_total :
    ∀ a b : MessageRow, (msg_le a b || msg_le b a) = true := by
  intro a b
  simp [msg_le]
  omega

theorem copilot_session_rows_perm (db : DB) (sid : String) :
    (session_rows db sid).Perm
      (db.messages.filter fun m => m.session_id == sid) :=
  List.mergeSort_perm _ _

theorem copilot_session_rows_sorted (db : DB) (sid : String) :
    (session_rows db sid).Pairwise fun a b => a.timestamp ≤ b.timestamp := by
  have h := List.sorted_mergeSort copilot_msg_le_trans copilot_msg_le_total
    (db.messages.filter fun m => m.session_id == sid)
  exact h.imp fun hab => by simpa [msg_le] using hab

theorem created_desc_trans :
    ∀ a b c : SessionRow, created_desc a b = true → created_desc b c = true →
      created_desc a c = true := by
  intro a b c
  simp [created_desc]
  omega

theorem created_desc_total :
    ∀ a b : SessionRow, (created_desc a b || created_desc b a) = true := by
  intro a b
  simp [created_desc]
  omega

end Copilot

/-! ### Claims -/

/-- C1: the spec claims that inserting a message whose `session_id` does not
reference an existing session fails with a `ConstraintViolation` and never
silently creates an orphaned message row.  The code violates this: both
variants declare the `FOREIGN KEY` in the schema (so the constraint is clearly
intended) but never execute `PRAGMA foreign_keys = ON`, and SQLite's
foreign-key enforcement is OFF by default.  Evaluating the code at the failing
input: on a freshly initialised database with no session `"s1"`,
`save_message` in either variant succeeds and creates exactly the orphaned
message row the claim rules out. -/
theorem C1_fk_unenforced_orphan :
    (Sqlite.init_db Sqlite.emptyFile).chat_sessions = []
    ∧ (Sqlite.save_message (Sqlite.init_db Sqlite.emptyFile)
        "s1" "user" "hi" 5).messages = [⟨1, "s1", "user", "hi", 5⟩]
    ∧ (Copilot.init_db Copilot.emptyFile).sessions = []
    ∧ (Copilot.save_message (Copilot.init_db Copilot.emptyFile)
        "s1" "hi" "yo" 5).messages = [⟨1, "s1", "hi", "yo", 5⟩] :=
  ⟨rfl, rfl, rfl, rfl⟩

/-- Concrete single-session database of the Copilot variant, used to exercise
the chat-input handler at a failing gateway. -/
def dbC2 : Copilot.DB := ⟨true, true, [⟨"s", 0⟩], [], 1⟩

/-- C2 counterexample: the claim says the user message is persisted before the
gateway is invoked, so after a gateway failure the user message is the last
recorded turn.  In chatUI-Copilot.py the handler calls `send_message(prompt)`
BEFORE any `save_message`; when the gateway raises, the exception propagates
and nothing at all is persisted — the database is unchanged and no row
containing the user text `"hi"` exists. -/
theorem C2_counterexample :
    (Copilot.chat_input_handler dbC2 "s" "hi"
        (Except.error Copilot.GatewayError.requestFailed) 1).1 = dbC2
    ∧ ¬ ∃ m ∈ (Copilot.chat_input_handler dbC2 "s" "hi"
        (Except.error Copilot.GatewayError.requestFailed) 1).1.messages,
        m.user_message = "hi" := by
  refine ⟨rfl, ?_⟩
  simp [Copilot.chat_input_handler, dbC2]

/-- C2 (amended): in the chatUI-Sqlite (role/content) variant the user message
is persisted before the gateway is invoked — on gateway failure it is already
stored and is the last recorded turn of the session, and a non-empty reply is
persisted after it (an empty reply is dropped by the `if response:` truthiness
check).  In the chatUI-Copilot (paired) variant nothing is persisted until the
gateway succeeds: on failure the database is unchanged and the error is
surfaced; on success the user text and reply are stored together as a single
paired row. -/
theorem C2_send_persistence (db : Sqlite.DB) (cdb : Copilot.DB)
    (sid prompt r : String) (t1 t2 t : Nat) (e : Copilot.GatewayError)
    (hfresh : ∀ m ∈ db.messages, m.timestamp < t1) :
    (Sqlite.chat_input_handler db sid prompt none t1 t2).messages
        = db.messages ++ [⟨db.next_id, sid, "user", prompt, t1⟩]
    ∧ (Sqlite.get_session_messages
          (Sqlite.chat_input_handler db sid prompt none t1 t2) sid).getLast?
        = some ("user", prompt)
    ∧ (r ≠ "" →
        (Sqlite.chat_input_handler db sid prompt (some r) t1 t2).messages
          = db.messages ++ [⟨db.next_id, sid, "user", prompt, t1⟩,
              ⟨db.next_id + 1, sid, "assistant", r, t2⟩])
    ∧ Copilot.chat_input_handler cdb sid prompt (Except.error e) t
        = (cdb, some e)
    ∧ (Copilot.chat_input_handler cdb sid prompt (Except.ok r) t).1.messages
        = cdb.messages ++ [⟨cdb.next_id, sid, prompt, r, t⟩] := by
  refine ⟨rfl, ?_, ?_, rfl, rfl⟩
  · show (Sqlite.get_session_messages
        (Sqlite.save_message db sid "user" prompt t1) sid).getLast? = _
    have key : (Sqlite.session_rows
        (Sqlite.save_message db sid "user" prompt t1) sid).getLast?
        = some ⟨db.next_id, sid, "user", prompt, t1⟩ := by
      apply getLast_eq_of_sorted_max (fun m => m.timestamp) _
        (db.messages.filter fun m => m.session_id == sid)
      · exact Sqlite.session_rows_sorted _ _
      · have hp := Sqlite.session_rows_perm
          (Sqlite.save_message db sid "user" prompt t1) sid
        have hfa : (Sqlite.save_message db sid "user" prompt t1).messages.filter
            (fun m => m.session_id == sid)
            = db.messages.filter (fun m => m.session_id == sid)
              ++ [⟨db.next_id, sid, "user", prompt, t1⟩] := by
          show (db.messages
              ++ [(⟨db.next_id, sid, "user", prompt, t1⟩ :
                    Sqlite.MessageRow)]).filter _ = _
          simp [List.filter_append]
        rwa [hfa] at hp
      · intro v hv
        exact hfresh v (List.mem_of_mem_filter hv)
    show ((Sqlite.session_rows _ _).map fun m => (m.role, m.content)).getLast?
        = _
    rw [List.getLast?_map, key]
    rfl
  · intro hr
    simp only [Sqlite.chat_input_handler, Sqlite.save_message, hr, if_neg hr]
    simp

/-- C3: in both variants, `get_session_messages` returns exactly the messages
whose `session_id` is the requested session (a permutation of the filtered
table), ordered by timestamp ascending; when the stored timestamps are
strictly increasing the transcript comes back exactly in insertion order; and
a session with no messages yields the empty list rather than an error. -/
theorem C3_transcript_ordering (db : Sqlite.DB) (cdb : Copilot.DB)
    (sid : String) :
    (Sqlite.session_rows db sid).Perm
        (db.messages.filter fun m => m.session_id == sid)
    ∧ ((Sqlite.session_rows db sid).Pairwise fun a b =>
        a.timestamp ≤ b.timestamp)
    ∧ ((db.messages.filter fun m => m.session_id == sid).Pairwise
          (fun a b => a.timestamp < b.timestamp) →
        Sqlite.get_session_messages db sid
          = (db.messages.filter fun m => m.session_id == sid).map
              fun m => (m.role, m.content))
    ∧ ((db.messages.filter fun m => m.session_id == sid) = [] →
        Sqlite.get_session_messages db sid = [])
    ∧ (Copilot.session_rows cdb sid).Perm
        (cdb.messages.filter fun m => m.session_id == sid)
    ∧ ((Copilot.session_rows cdb sid).Pairwise fun a b =>
        a.timestamp ≤ b.timestamp)
    ∧ ((cdb.messages.filter fun m => m.session_id == sid).Pairwise
          (fun a b => a.timestamp < b.timestamp) →
        Copilot.get_session_messages cdb sid
          = (cdb.messages.filter fun m => m.session_id == sid).map
              fun m => (m.user_message, m.llm_response))
    ∧ ((cdb.messages.filter fun m => m.session_id == sid) = [] →
        Copilot.get_session_messages cdb sid = []) := by
  refine ⟨Sqlite.session_rows_perm db sid, Sqlite.session_rows_sorted db sid,
    ?_, ?_, Copilot.copilot_session_rows_perm cdb sid,
    Copilot.copilot_session_rows_sorted cdb sid, ?_, ?_⟩
  · intro h
    show (Sqlite.session_rows db sid).map _ = _
    rw [show Sqlite.session_rows db sid = _ from
      List.mergeSort_of_sorted (h.imp fun hab => by
        simp only [Sqlite.msg_le, decide_eq_true_eq]
        omega)]
  · intro h
    simp [Sqlite.get_session_messages, Sqlite.session_rows, h]
  · intro h
    show (Copilot.session_rows cdb sid).map _ = _
    rw [show Copilot.session_rows cdb sid = _ from
      List.mergeSort_of_sorted (h.imp fun hab => by
        simp only [Copilot.msg_le, decide_eq_true_eq]
        omega)]
  · intro h
    simp [Copilot.get_session_messages, Copilot.session_rows, h]

/-- Concrete two-message database of the Sqlite variant with strictly
increasing timestamps. -/
def dbC3 : Sqlite.DB :=
  ⟨true, true, [⟨"s", 0, 2⟩],
    [⟨1, "s", "user", "hi", 1⟩, ⟨2, "s", "assistant", "yo", 2⟩], 3⟩

/-- C3 witness: at a concrete database whose two messages for session `"s"`
carry timestamps 1 < 2, the transcript equals the filtered message table in
insertion order. -/
theorem C3_witness :
    ((dbC3.messages.filter fun m => m.session_id == "s").Pairwise
        fun a b => a.timestamp < b.timestamp)
    ∧ Sqlite.get_session_messages dbC3 "s"
        = (dbC3.messages.filter fun m => m.session_id == "s").map
            fun m => (m.role, m.content) :=
  ⟨by decide,
    (C3_transcript_ordering dbC3 Copilot.emptyFile "s").2.2.1 (by decide)⟩

/-- C4: appending a message to session `A` leaves the transcript of any other
session `B` unchanged, in both variants — messages written to `A` never
appear in `B`'s transcript. -/
theorem C4_session_isolation (db : Sqlite.DB) (cdb : Copilot.DB)
    (A B role content u r : String) (t : Nat) (hne : B ≠ A) :
    Sqlite.get_session_messages (Sqlite.save_message db A role content t) B
      = Sqlite.get_session_messages db B
    ∧ Copilot.get_session_messages (Copilot.save_message cdb A u r t) B
      = Copilot.get_session_messages cdb B := by
  constructor
  · simp [Sqlite.get_session_messages, Sqlite.session_rows,
      Sqlite.save_message, List.filter_append, Ne.symm hne]
  · simp [Copilot.get_session_messages, Copilot.session_rows,
      Copilot.save_message, List.filter_append, Ne.symm hne]

/-- C4 witness: at a concrete database, saving a message into session `"a"`
leaves the transcript of session `"b"` unchanged. -/
theorem C4_witness :
    ("b" ≠ "a")
    ∧ Sqlite.get_session_messages
        (Sqlite.save_message dbC3 "a" "user" "ping" 5) "b"
      = Sqlite.get_session_messages dbC3 "b" :=
  ⟨by decide,
    (C4_session_isolation dbC3 Copilot.emptyFile "a" "b" "user" "ping" "u" "r"
      5 (by decide)).1⟩

/-- Concrete empty-session database of the Sqlite variant. -/
def dbC2w : Sqlite.DB := ⟨true, true, [⟨"s", 0, 0⟩], [], 1⟩

/-- C2 witness: at a concrete Sqlite-variant database with a session and no
messages, a send whose gateway fails leaves the user message as the last
recorded turn of the session. -/
theorem C2_witness :
    (∀ m ∈ dbC2w.messages, m.timestamp < 1)
    ∧ (Sqlite.get_session_messages
        (Sqlite.chat_input_handler dbC2w "s" "hi" none 1 2) "s").getLast?
        = some ("user", "hi") :=
  ⟨by simp [dbC2w],
    (C2_send_persistence dbC2w Copilot.emptyFile "s" "hi" "yo" 1 2 3
      Copilot.GatewayError.requestFailed (by simp [dbC2w])).2.1⟩

/-- C5: store initialization is idempotent in both variants — for every
starting database state and every `N ≥ 1`, calling `init_db` `N` times yields
the same state as calling it once; when the tables already exist their
session and message rows are preserved.  `CREATE TABLE IF NOT EXISTS` never
raises a duplicate-table error, which the embedding reflects by `init_db`
being a total function. -/
theorem C5_init_idempotent (db : Sqlite.DB) (cdb : Copilot.DB) (n : Nat)
    (hn : 1 ≤ n) :
    Sqlite.init_db^[n] db = Sqlite.init_db db
    ∧ Copilot.init_db^[n] cdb = Copilot.init_db cdb
    ∧ (db.hasSessionsTable = true →
        (Sqlite.init_db db).chat_sessions = db.chat_sessions)
    ∧ (db.hasMessagesTable = true →
        (Sqlite.init_db db).messages = db.messages)
    ∧ (cdb.hasSessionsTable = true →
        (Copilot.init_db cdb).sessions = cdb.sessions)
    ∧ (cdb.hasMessagesTable = true →
        (Copilot.init_db cdb).messages = cdb.messages) := by
  obtain ⟨m, rfl⟩ : ∃ m, n = m + 1 := ⟨n - 1, by omega⟩
  refine ⟨?_, ?_, ?_, ?_, ?_, ?_⟩
  · rw [Function.iterate_succ_apply]
    exact Function.iterate_fixed (by simp [Sqlite.init_db]) m
  · rw [Function.iterate_succ_apply]
    exact Function.iterate_fixed (by simp [Copilot.init_db]) m
  · intro h
    simp [Sqlite.init_db, h]
  · intro h
    simp [Sqlite.init_db, h]
  · intro h
    simp [Copilot.init_db, h]
  · intro h
    simp [Copilot.init_db, h]

/-- C5 witness: three initializations of a concrete populated database equal a
single one. -/
theorem C5_witness :
    1 ≤ 3 ∧ Sqlite.init_db^[3] dbC3 = Sqlite.init_db dbC3 :=
  ⟨by decide,
    (C5_init_idempotent dbC3 Copilot.emptyFile 3 (by decide)).1⟩

/-- A 25-character first user message. -/
def s25 : String := "aaaaaaaaaaaaaaaaaaaaaaaaa"

/-- Concrete database whose session `"s"` has a 25-character first user
message. -/
def dbC6 : Sqlite.DB :=
  ⟨true, true, [⟨"s", 0, 1⟩], [⟨1, "s", "user", s25, 1⟩], 2⟩

set_option maxRecDepth 8000 in
/-- C6 counterexample: the claim says a first user message longer than 24
characters is shown truncated to its first 24 characters plus an ellipsis.
The code truncates only when `len(first_message) > 27`, so for a 25-character
first user message the sidebar shows the whole message, not the truncation
the claim requires. -/
theorem C6_counterexample :
    s25.length = 25
    ∧ Sqlite.sidebar_preview dbC6 "s" = s25
    ∧ Sqlite.sidebar_preview dbC6 "s" ≠ s25.take 24 ++ "..." := by
  have h1 : Sqlite.user_rows dbC6 "s"
      = [(⟨1, "s", "user", s25, 1⟩ : Sqlite.MessageRow)] := by
    have h0 : Sqlite.user_rows dbC6 "s"
        = ([(⟨1, "s", "user", s25, 1⟩ :
            Sqlite.MessageRow)]).mergeSort Sqlite.msg_le := rfl
    rw [h0, List.mergeSort_singleton]
  have h2 : Sqlite.sidebar_preview dbC6 "s" = s25 := by
    show Sqlite.display_text (Sqlite.get_first_user_message dbC6 "s") = s25
    unfold Sqlite.get_first_user_message
    rw [h1]
    simp only [Sqlite.display_text]
    rw [if_neg (by decide)]
  refine ⟨by decide, h2, ?_⟩
  rw [h2]
  decide

/-- C6 (amended): the sidebar preview equals the first user-authored message
whenever that message is at most 27 characters long, and equals its first 24
characters followed by `"..."` whenever it is longer than 27; a session with
no user-authored message yields an empty preview; and (for strictly
increasing stored timestamps) the message used is the earliest user-role
message of the session. -/
theorem C6_preview (db : Sqlite.DB) (sid s : String) :
    (s.length ≤ 27 → Sqlite.display_text s = s)
    ∧ (27 < s.length → Sqlite.display_text s = s.take 24 ++ "...")
    ∧ Sqlite.sidebar_preview db sid
        = Sqlite.display_text (Sqlite.get_first_user_message db sid)
    ∧ ((db.messages.filter fun m =>
          m.session_id == sid && m.role == "user") = [] →
        Sqlite.sidebar_preview db sid = "")
    ∧ ((db.messages.filter fun m =>
          m.session_id == sid && m.role == "user").Pairwise
          (fun a b => a.timestamp < b.timestamp) →
        Sqlite.get_first_user_message db sid
          = ((db.messages.filter fun m =>
              m.session_id == sid && m.role == "user").map
              fun m => m.content).headD "") := by
  refine ⟨?_, ?_, rfl, ?_, ?_⟩
  · intro h
    simp only [Sqlite.display_text]
    rw [if_neg (by omega)]
  · intro h
    simp only [Sqlite.display_text]
    rw [if_pos (by omega)]
  · intro h
    have hu : Sqlite.user_rows db sid = [] := by
      simp [Sqlite.user_rows, h]
    show Sqlite.display_text (Sqlite.get_first_user_message db sid) = ""
    unfold Sqlite.get_first_user_message
    rw [hu]
    simp [Sqlite.display_text]
  · intro h
    have hu : Sqlite.user_rows db sid
        = db.messages.filter fun m =>
            m.session_id == sid && m.role == "user" :=
      List.mergeSort_of_sorted (h.imp fun hab => by
        simp only [Sqlite.msg_le, decide_eq_true_eq]
        omega)
    unfold Sqlite.get_first_user_message
    rw [hu]
    rcases hE : db.messages.filter fun m =>
        m.session_id == sid && m.role == "user" with _ | ⟨m, ms⟩
    · simp only [hE]
      simp
    · simp only [hE]
      simp

/-- Concrete database whose session `"s"` has only an assistant message. -/
def dbC6w : Sqlite.DB :=
  ⟨true, true, [⟨"s", 0, 1⟩], [⟨1, "s", "assistant", "yo", 1⟩], 2⟩

/-- C6 witness: a session with no user-authored message yields the empty
preview. -/
theorem C6_witness :
    (dbC6w.messages.filter fun m =>
        m.session_id == "s" && m.role == "user") = []
    ∧ Sqlite.sidebar_preview dbC6w "s" = "" :=
  ⟨rfl, (C6_preview dbC6w "s" "x").2.2.2.1 rfl⟩

/-- C7: session listings come back most-recently-active first — the Copilot
variant's `get_sessions` is ordered by `created_at` descending and is a
permutation of the projected session table; the Sqlite variant's
`get_all_sessions` is ordered by `last_updated` descending and is a
permutation of the deduplicated join result (the sessions having at least one
message). -/
theorem C7_listing_order (db : Sqlite.DB) (cdb : Copilot.DB) :
    ((Copilot.get_sessions cdb).Pairwise fun a b => b.2 ≤ a.2)
    ∧ (Copilot.get_sessions cdb).Perm
        (cdb.sessions.map fun s => (s.session_id, s.created_at))
    ∧ ((Sqlite.get_all_sessions db).Pairwise fun a b =>
        b.last_updated ≤ a.last_updated)
    ∧ (Sqlite.get_all_sessions db).Perm
        ((db.chat_sessions.filter fun s =>
            db.messages.any fun m => m.session_id == s.session_id).dedup) := by
  refine ⟨?_, ?_, ?_, ?_⟩
  · have hs := List.sorted_mergeSort Copilot.created_desc_trans
      Copilot.created_desc_total cdb.sessions
    exact List.Pairwise.map _
      (fun a b hab => by simpa [Copilot.created_desc] using hab) hs
  · exact (List.mergeSort_perm cdb.sessions Copilot.created_desc).map _
  · have hs := List.sorted_mergeSort Sqlite.sess_desc_trans
      Sqlite.sess_desc_total
      ((db.chat_sessions.filter fun s =>
          db.messages.any fun m => m.session_id == s.session_id).dedup)
    exact hs.imp fun hab => by simpa [Sqlite.sess_desc] using hab
  · exact List.mergeSort_perm _ _

/-- C8: persisted history is append-only — `save_message` in both variants
appends one new row and leaves every previously stored row (its text, pairing
and timestamp) unchanged; the retry handler appends a new paired row with the
ORIGINAL user text and the fresh reply, touching nothing on gateway failure;
and neither `init_db` (on an existing table) nor session creation changes any
message row. -/
theorem C8_append_only (db : Sqlite.DB) (cdb : Copilot.DB)
    (sid role content u r user_msg new_response : String) (t : Nat)
    (e : Copilot.GatewayError) :
    (Sqlite.save_message db sid role content t).messages
        = db.messages ++ [⟨db.next_id, sid, role, content, t⟩]
    ∧ (Sqlite.save_message db sid role content t).messages.take
        db.messages.length = db.messages
    ∧ (Copilot.save_message cdb sid u r t).messages.take
        cdb.messages.length = cdb.messages
    ∧ (Copilot.retry_handler cdb sid user_msg
        (Except.ok new_response) t).1.messages
        = cdb.messages ++ [⟨cdb.next_id, sid, user_msg, new_response, t⟩]
    ∧ (Copilot.retry_handler cdb sid user_msg (Except.error e) t).1 = cdb
    ∧ (db.hasMessagesTable = true → (Sqlite.init_db db).messages = db.messages)
    ∧ (∀ db2, Sqlite.create_new_session db sid t = some db2 →
        db2.messages = db.messages) := by
  refine ⟨rfl, by simp [Sqlite.save_message], by simp [Copilot.save_message],
    rfl, rfl, ?_, ?_⟩
  · intro h
    simp [Sqlite.init_db, h]
  · intro db2 h
    unfold Sqlite.create_new_session at h
    split at h
    · exact absurd h (by simp)
    · obtain rfl := Option.some.inj h
      rfl

/-- C8 witness: at a concrete populated database, re-running `init_db` leaves
every message row unchanged. -/
theorem C8_witness :
    dbC3.hasMessagesTable = true
    ∧ (Sqlite.init_db dbC3).messages = dbC3.messages :=
  ⟨rfl,
    (C8_append_only dbC3 Copilot.emptyFile "s" "user" "hi" "u" "r" "um" "nr" 9
      Copilot.GatewayError.requestFailed).2.2.2.2.2.1 rfl⟩

/-- C10: under the primary-key invariant (no two session rows share an id),
the Sqlite variant's `get_all_sessions` lists exactly the sessions having at
least one message, and each listed session id appears exactly once no matter
how many messages it has. -/
theorem C10_session_filter (db : Sqlite.DB)
    (hpk : (db.chat_sessions.map fun s => s.session_id).Nodup) :
    (∀ s : Sqlite.SessionRow, s ∈ Sqlite.get_all_sessions db ↔
        s ∈ db.chat_sessions ∧ ∃ m ∈ db.messages, m.session_id = s.session_id)
    ∧ ((Sqlite.get_all_sessions db).map fun s => s.session_id).Nodup := by
  constructor
  · intro s
    simp [Sqlite.get_all_sessions, List.mem_filter, List.any_eq_true]
  · have h1 : ((db.chat_sessions.filter fun s =>
        db.messages.any fun m => m.session_id == s.session_id).dedup).Sublist
        db.chat_sessions :=
      (List.dedup_sublist _).trans (List.filter_sublist _)
    have h2 := h1.map fun s => s.session_id
    have h3 := List.Nodup.sublist h2 hpk
    have hperm := (List.mergeSort_perm
      ((db.chat_sessions.filter fun s =>
          db.messages.any fun m => m.session_id == s.session_id).dedup)
      Sqlite.sess_desc).map fun s => s.session_id
    exact hperm.nodup_iff.mpr h3

/-- Concrete database with two sessions where only the second has a message:
the listing scenario of the spec. -/
def dbC10 : Sqlite.DB :=
  ⟨true, true, [⟨"s1", 1, 1⟩, ⟨"s2", 2, 3⟩], [⟨1, "s2", "user", "hi", 3⟩], 2⟩

/-- C10 witness: with two sessions of which only `"s2"` has a message, the
listing contains exactly one entry, the row of `"s2"`. -/
theorem C10_witness :
    ((dbC10.chat_sessions.map fun s => s.session_id).Nodup)
    ∧ ((Sqlite.get_all_sessions dbC10).map fun s => s.session_id).Nodup
    ∧ Sqlite.get_all_sessions dbC10 = [⟨"s2", 2, 3⟩] := by
  refine ⟨by decide, (C10_session_filter dbC10 (by decide)).2, ?_⟩
  have h0 : Sqlite.get_all_sessions dbC10
      = ([(⟨"s2", 2, 3⟩ : Sqlite.SessionRow)]).mergeSort Sqlite.sess_desc :=
    rfl
  rw [h0, List.mergeSort_singleton]

/-- C9 counterexample: the claim says every persistence operation releases its
connection on every exit path, including when the operation raises.  In
chatUI-Sqlite.py, `save_message` has no `try`/`finally`: when its INSERT
raises an `sqlite3.Error`, the trace of completed connection actions contains
the `connect` but no `close` — the connection is not released on that exit
path. -/
theorem C9_counterexample :
    ConnEvent.connect ∈ sqliteSaveMessageTrace (some 0)
    ∧ ConnEvent.close ∉ sqliteSaveMessageTrace (some 0) := by
  decide

/-- C9 (amended): every persistence operation acquires its own connection
(each trace starts with `connect`) and commits its statements on the normal
path; the chatUI-Copilot variant releases the connection on every exit path
(its `get_db_connection` context manager closes in a `finally:` clause), but
the chatUI-Sqlite variant releases the connection only on the non-error path —
a statement that raises skips the `close`. -/
theorem C9_connection_lifecycle (f : Option Nat) :
    (sqliteSaveMessageTrace f).head? = some ConnEvent.connect
    ∧ (copilotSaveMessageTrace f).head? = some ConnEvent.connect
    ∧ ConnEvent.close ∈ copilotSaveMessageTrace f
    ∧ (ConnEvent.close ∈ sqliteSaveMessageTrace f ↔ f = none)
    ∧ ConnEvent.commit ∈ sqliteSaveMessageTrace none
    ∧ ConnEvent.commit ∈ copilotSaveMessageTrace none := by
  rcases f with _ | n
  · decide
  · rcases n with _ | n
    · decide
    · rcases n with _ | n
      · decide
      · refine ⟨rfl, rfl, by simp [copilotSaveMessageTrace], ?_, by decide, by decide⟩
        simp [sqliteSaveMessageTrace]

end ChatUI
